import Mathlib

/-!
Verification of `lacp_migration.py` (EXOS on-box LACP migration script).

The script is shallowly embedded: the device command channel (`exsh.clicmd`)
is modelled as an environment function `Exsh` mapping a command string and a
capture flag to `Option String` (`some out` = the call returned output `out`,
`none` = the call raised an exception).  Each embedded function returns its
Python return value together with the list of observable events it produced
(commands issued to the device, log lines printed); `time.sleep` calls have
no observable effect in this model and are dropped.  Wall-clock timestamps
(`time.time()`) are modelled as rationals; the Python `int()` truncation is
modelled by `pyInt`.
-/

namespace LacpMigration

/-! ### Configuration block (lines 15-29 of the source) -/

def PRIMARY_PORT : String := "1:60"

def GROUPING_PORTS : String := "1:60,2:60"

def ALGORITHM_CLI : String := "address-based L2"

def REACHABILITY_IP : String := "8.8.8.8"

def OVERALL_TIMEOUT_S : ℚ := 120

def STABLE_REQUIRED_S : ℤ := 60

def PING_INTERVAL_S : ℚ := 2

def BACKUP_NAME_PRE : String := "lacp_prechange"

def BACKUP_NAME_POST : String := "primary"

/-! ### Observable events and the device environment -/

/-- An observable effect of the script: a CLI command issued to the device,
or a log line printed to the console. -/
inductive Event where
  | cmd (c : String)
  | log (m : String)
deriving DecidableEq, Repr

/-- The device commands contained in an event trace (log lines dropped). -/
def cmds (evs : List Event) : List String :=
  evs.filterMap fun e =>
    match e with
    | .cmd c => some c
    | .log _ => none

/-- The device command channel: `exsh.clicmd cmd capture` either returns
captured output (`some out`) or raises (`none`). -/
abbrev Exsh := String → Bool → Option String

/-! ### String helpers (executable models of the Python string operations) -/

/-- Python `int()` applied to a float difference: truncation toward zero. -/
def pyInt (x : ℚ) : ℤ := if 0 ≤ x then ⌊x⌋ else ⌈x⌉

/-- Whether `p` is a prefix of `s` (as character lists). -/
def listHasPre : List Char → List Char → Bool
  | [], _ => true
  | _ :: _, [] => false
  | p :: ps, c :: cs => p == c && listHasPre ps cs

/-- Whether `pat` occurs as a contiguous sublist of `s`. -/
def listHasSub : List Char → List Char → Bool
  | pat, [] => listHasPre pat []
  | pat, c :: cs => listHasPre pat (c :: cs) || listHasSub pat cs

/-- Python `pat in s` (substring containment). -/
def strHasSub (s pat : String) : Bool := listHasSub pat.data s.data

/-- Python `s.startswith(pre)`. -/
def strHasPre (pre s : String) : Bool := listHasPre pre.data s.data

/-- Python `s.lower()` (ASCII commands and outputs in this model). -/
def lowerStr (s : String) : String := ⟨s.data.map Char.toLower⟩

/-- Replace each occurrence of the two-character slot `"\x7b\x7d"` by `arg`:
the model of Python `tmpl.format(arg)` for the templates of this script. -/
def replaceBraces (arg : List Char) : List Char → List Char
  | '\x7b' :: '\x7d' :: rest => arg ++ replaceBraces arg rest
  | c :: rest => c :: replaceBraces arg rest
  | [] => []

/-- Python `tmpl.format(ip)` for a one-slot template. -/
def format1 (tmpl arg : String) : String := ⟨replaceBraces arg.data tmpl.data⟩

/-! ### `cli` (lines 43-57): the command-execution wrapper -/

/-- Model of `cli(cmd, capture, ignore_error)`: execute a CLI command and never raise;
return `(ok, output)`.  A raised exception (`exsh c capture = none`) is
logged and converted to `(false, "")`; the source returns `(False, "")` in
both arms of its `ignore_error` test. -/
def cli (exsh : Exsh) (c : String) (capture ignore_error : Bool) :
    (Bool × String) × List Event :=
  match exsh c capture with
  | some out => ((true, out), [.cmd c])
  | none =>
    if ignore_error then ((false, ""), [.cmd c, .log ("CLI error on " ++ c)])
    else ((false, ""), [.cmd c, .log ("CLI error on " ++ c)])

/-! ### Idempotent configuration actions (lines 59-94, 158-172) -/

/-- Model of `try_save_named(name)` (lines 59-68): best-effort named save with a
plain-save fallback; always returns `True`. -/
def try_save_named (exsh : Exsh) (name : String) : Bool × List Event :=
  let r := cli exsh ("save configuration " ++ name) true true
  if r.1.1 then (true, r.2)
  else (true, r.2 ++ (cli exsh "save configuration" true true).2)

/-- Python `out.splitlines()` (newline-separated output in this model). -/
def splitLinesAux : List Char → List Char → List String
  | [], acc => [⟨acc.reverse⟩]
  | '\n' :: rest, acc => ⟨acc.reverse⟩ :: splitLinesAux rest []
  | c :: rest, acc => splitLinesAux rest (c :: acc)

def splitLines (s : String) : List String := splitLinesAux s.data []

/-- A word character in the sense of the `\b` regex boundary. -/
def isWordChar (c : Char) : Bool := c.isAlphanum || c == '_'

/-- Model of `re.search(r"^1:60\b", line)`: the line starts with the primary
port and the next character (if any) is not a word character. -/
def masterLineMatch (line : String) : Bool :=
  strHasPre PRIMARY_PORT line &&
    (match line.data.drop PRIMARY_PORT.data.length with
     | [] => true
     | c :: _ => !isWordChar c)

/-- Model of `sharing_present_on_primary()` (lines 70-78): whether the primary port
appears as a group master in `show ports sharing` output. -/
def sharing_present_on_primary (exsh : Exsh) : Bool × List Event :=
  let r := cli exsh "show ports sharing" true true
  if !r.1.1 then (false, r.2)
  else ((splitLines r.1.2).any masterLineMatch, r.2)

/-- Model of `reset_sharing()` (lines 80-86): disable then unconfigure sharing on the
primary port, ignoring errors (`time.sleep` pauses are not observable). -/
def reset_sharing (exsh : Exsh) : List Event :=
  Event.log ("Reset sharing on " ++ PRIMARY_PORT ++ " (disable + unconfigure) ...") ::
  (cli exsh ("disable sharing " ++ PRIMARY_PORT) true true).2 ++
  (cli exsh ("unconfigure sharing " ++ PRIMARY_PORT) true true).2

/-- Model of `enable_sharing_lacp()` (lines 88-93): create the LACP group, then set
LACP activity active; only the first call has `ignore_error=False`. -/
def enable_sharing_lacp (exsh : Exsh) : List Event :=
  Event.log ("Enable sharing LACP on " ++ PRIMARY_PORT ++ " (group " ++ GROUPING_PORTS ++ ", algo " ++ ALGORITHM_CLI ++ ")") ::
  (cli exsh ("enable sharing " ++ PRIMARY_PORT ++ " grouping " ++ GROUPING_PORTS ++ " algorithm " ++ ALGORITHM_CLI ++ " lacp") true false).2 ++
  (cli exsh ("configure sharing " ++ PRIMARY_PORT ++ " lacp activity active") true true).2

/-- Model of `rollback_to_static_sharing()` (lines 158-172): disable, unconfigure,
re-enable sharing WITHOUT lacp, then bounce the master port. -/
def rollback_to_static_sharing (exsh : Exsh) : List Event :=
  Event.log ("Rollback: restoring static sharing (no LACP) on " ++ PRIMARY_PORT ++ " with group " ++ GROUPING_PORTS ++ " ...") ::
  (cli exsh ("disable sharing " ++ PRIMARY_PORT) true true).2 ++
  (cli exsh ("unconfigure sharing " ++ PRIMARY_PORT) true true).2 ++
  (cli exsh ("enable sharing " ++ PRIMARY_PORT ++ " grouping " ++ GROUPING_PORTS ++ " algorithm " ++ ALGORITHM_CLI) true true).2 ++
  [Event.log ("Rollback: cycling master port " ++ PRIMARY_PORT ++ " to clear LAG state ...")] ++
  (cli exsh ("disable ports " ++ PRIMARY_PORT) true true).2 ++
  (cli exsh ("enable ports " ++ PRIMARY_PORT) true true).2

/-! ### Reachability probe (lines 95-127) -/

/-- The success-marker rule of `try_ping_with_template` (lines 99-101). -/
def ping_output_ok (out : String) : Bool :=
  let o := lowerStr out
  strHasSub o "bytes from" || strHasSub o " 1 received" ||
    strHasSub o "1 packets received" || strHasSub o "1 packet received"

/-- Model of `try_ping_with_template(ip, template)` (lines 95-101): one probe command,
success iff the command succeeded and its output matches a success marker. -/
def try_ping_with_template (exsh : Exsh) (ip tmpl : String) : Bool × List Event :=
  let r := cli exsh (format1 tmpl ip) true true
  if !r.1.1 then (false, r.2)
  else (ping_output_ok r.1.2, r.2)

/-- The ordered candidate list of `detect_ping_template` (lines 108-112). -/
def ping_candidates : List String :=
  ["ping count 1 \x7b\x7d", "ping \x7b\x7d", "ping ipv4 count 1 \x7b\x7d"]

/-- The candidate loop of `detect_ping_template` (lines 113-116): one real
probe per candidate, stopping at the first success. -/
def detect_loop (exsh : Exsh) : List String → Option String × List Event
  | [] => (none, [])
  | tmpl :: rest =>
    let r := try_ping_with_template exsh REACHABILITY_IP tmpl
    if r.1 then (some tmpl, r.2)
    else
      let d := detect_loop exsh rest
      (d.1, r.2 ++ d.2)

/-- Model of `detect_ping_template()` (lines 103-116). -/
def detect_ping_template (exsh : Exsh) : Option String × List Event :=
  detect_loop exsh ping_candidates

/-- Model of `ping_ok()` (lines 118-127).  The global `PING_CMD_TEMPLATE` is passed
and returned explicitly: the result is `((reachable, newTemplate), trace)`.
Note the source stores `detect_ping_template()`s result back into the
global even when it is `None`. -/
def ping_ok (exsh : Exsh) (tmpl : Option String) : (Bool × Option String) × List Event :=
  match tmpl with
  | some t =>
    let p := try_ping_with_template exsh REACHABILITY_IP t
    ((p.1, some t), p.2)
  | none =>
    let d := detect_ping_template exsh
    match d.1 with
    | none =>
      ((false, none),
        d.2 ++ [.log "Could not find a working ping syntax on this EXOS image."])
    | some t =>
      let p := try_ping_with_template exsh REACHABILITY_IP t
      ((p.1, some t), d.2 ++ [.log ("Detected ping syntax: " ++ t)] ++ p.2)

/-! ### Reachability monitor (lines 130-156) -/

/-- Outcome of one iteration of the `while True` loop of
`reachability_monitor`: terminal success, terminal failure, or another
iteration with an updated `stable_since`. -/
inductive StepRes where
  | success
  | failure
  | next (stable_since : Option ℚ)
deriving DecidableEq, Repr

/-- One iteration of `reachability_monitor` (lines 134-156), given the
probe outcome `ok` of this tick and the `time.time()` value `now` read
just after the probe.  The stability threshold and overall timeout are the
configuration constants, lifted to parameters. -/
def monitor_step (stableReq : ℤ) (timeout start : ℚ) (stable_since : Option ℚ)
    (ok : Bool) (now : ℚ) : StepRes :=
  if ok then
    match stable_since with
    | none =>
      if now - start > timeout then .failure else .next (some now)
    | some t =>
      if pyInt (now - t) ≥ stableReq then .success
      else if now - start > timeout then .failure else .next (some t)
  else
    if now - start > timeout then .failure else .next none

/-- The loop of `reachability_monitor`, driven by the sequence `oks` of
probe outcomes and the sequence `times` of `time.time()` readings (tick
`k` observes `oks k` and `times k`).  `fuel` bounds the number of
iterations evaluated; `none` means the loop did not return within `fuel`
iterations. -/
def monitor_run (stableReq : ℤ) (timeout start : ℚ) (oks : ℕ → Bool) (times : ℕ → ℚ) :
    ℕ → ℕ → Option ℚ → Option Bool
  | 0, _, _ => none
  | fuel + 1, k, stable_since =>
    match monitor_step stableReq timeout start stable_since (oks k) (times k) with
    | .success => some true
    | .failure => some false
    | .next s => monitor_run stableReq timeout start oks times fuel (k + 1) s

/-! ### Orchestrator `main()` (lines 179-214) -/

/-- Lines 193-198 of `main`, with the boolean returned by
`sharing_present_on_primary()` abstracted as a parameter: the informational
log, the idempotent reset, the LACP enable and the pause-point log. -/
def main_after_check (exsh : Exsh) (sharing_detected : Bool) : List Event :=
  (if sharing_detected
   then [Event.log ("Existing sharing detected on " ++ PRIMARY_PORT ++ ".")]
   else []) ++
  reset_sharing exsh ++ enable_sharing_lacp exsh ++
  [Event.log "EXOS side switched to LACP. >>> Now configure SMLT/LAG on the two VOSS cores. <<<"]

/-- Lines 180-198 of `main`: everything before the reachability monitor.
The timing constants of the configuration block are lifted to the
parameters `stableReq` and `timeout`; the source reads neither of them in
this phase (there is no startup validation), so they are unused here. -/
def main_pre_trace (stableReq : ℤ) (timeout : ℚ) (exsh : Exsh) : List Event :=
  [Event.log "=== LACP migration (EXOS access -> VOSS SMLT) ===",
   Event.log ("Params: PRIMARY_PORT=" ++ PRIMARY_PORT ++ ", GROUP=" ++ GROUPING_PORTS ++ ", TARGET=" ++ REACHABILITY_IP)] ++
  (ping_ok exsh none).2 ++
  [Event.log ("Saving pre-change config name " ++ BACKUP_NAME_PRE ++ " ...")] ++
  (try_save_named exsh BACKUP_NAME_PRE).2 ++
  (sharing_present_on_primary exsh).2 ++
  main_after_check exsh (sharing_present_on_primary exsh).1

/-- Lines 203-214 of `main`: the commit-or-rollback branch taken after
`reachability_monitor()` returned `success`. -/
def main_commit_or_rollback (exsh : Exsh) (success : Bool) : List Event :=
  if success then
    Event.log ("Link up and stable - saving running config as " ++ BACKUP_NAME_POST ++ ".") ::
    (try_save_named exsh BACKUP_NAME_POST).2 ++
    [Event.log "Saved. Migration complete."]
  else
    Event.log "Link not stable - performing SOFT ROLLBACK (no reboot, no save)." ::
    rollback_to_static_sharing exsh ++
    [Event.log "Soft rollback done. Configuration NOT saved.",
     Event.log "If you still want to reboot without saving, run manually at the CLI:",
     Event.log ("  use configuration " ++ BACKUP_NAME_PRE),
     Event.log "  reboot all   (then answer n to the save prompt)"]

/-! ### Concrete device environments used for evaluations -/

/-- A device whose command channel raises on every call. -/
def exshFail : Exsh := fun _ _ => none

/-- A device that answers the first ping-candidate syntax with a successful
ping output and raises on everything else. -/
def exshGood : Exsh := fun c _ =>
  if c = "ping count 1 8.8.8.8" then
    some "64 bytes from 8.8.8.8: icmp_seq=0 ttl=115 time=10 ms"
  else none

/-- A probe-outcome sequence that always succeeds. -/
def oksT : ℕ → Bool := fun _ => true

/-- Tick times advancing by exactly the 2-second poll interval, the first
tick observed 2 seconds after the start time 0. -/
def timesT : ℕ → ℚ := fun k => 2 * (k : ℚ) + 2

/-! ### Helper lemmas about event traces -/

@[simp]
theorem cmds_nil : cmds [] = [] := rfl

@[simp]
theorem cmds_append (a b : List Event) : cmds (a ++ b) = cmds a ++ cmds b :=
  List.filterMap_append a b _

@[simp]
theorem cmds_cons_cmd (c : String) (evs : List Event) :
    cmds (.cmd c :: evs) = c :: cmds evs := rfl

@[simp]
theorem cmds_cons_log (m : String) (evs : List Event) :
    cmds (.log m :: evs) = cmds evs := rfl

/-- Every `cli` call issues exactly its one command to the device,
whatever the device does. -/
@[simp]
theorem cmds_cli (exsh : Exsh) (c : String) (capture ie : Bool) :
    cmds (cli exsh c capture ie).2 = [c] := by
  cases h : exsh c capture <;> simp [cli, h]

/-- The trace of `try_save_named`: the named save, followed by the plain
fallback save exactly when the named save failed. -/
theorem cmds_try_save_named (exsh : Exsh) (name : String) :
    cmds (try_save_named exsh name).2 = ["save configuration " ++ name] ∨
    cmds (try_save_named exsh name).2 =
      ["save configuration " ++ name, "save configuration"] := by
  by_cases h : (cli exsh ("save configuration " ++ name) true true).1.1
  · left; simp [try_save_named, h]
  · right; simp [try_save_named, h]

/-- The commit branch of `main` issues exactly the `try_save_named` commands. -/
theorem cmds_commit (exsh : Exsh) :
    cmds (main_commit_or_rollback exsh true) = cmds (try_save_named exsh BACKUP_NAME_POST).2 := by
  simp [main_commit_or_rollback]

/-- The rollback branch of `main` issues exactly the five rollback commands. -/
theorem cmds_rollback (exsh : Exsh) :
    cmds (main_commit_or_rollback exsh false) =
      ["disable sharing " ++ PRIMARY_PORT, "unconfigure sharing " ++ PRIMARY_PORT,
       "enable sharing " ++ PRIMARY_PORT ++ " grouping " ++ GROUPING_PORTS ++
         " algorithm " ++ ALGORITHM_CLI,
       "disable ports " ++ PRIMARY_PORT, "enable ports " ++ PRIMARY_PORT] := by
  simp [main_commit_or_rollback, rollback_to_static_sharing]

theorem pyInt_of_nonneg {x : ℚ} (h : 0 ≤ x) : pyInt x = ⌊x⌋ := if_pos h

/-- For a nonnegative difference and an integer threshold, the truncated
comparison of the source agrees with the exact comparison. -/
theorem le_pyInt_iff {z : ℤ} {x : ℚ} (h : 0 ≤ x) : z ≤ pyInt x ↔ (z : ℚ) ≤ x := by
  rw [pyInt_of_nonneg h, Int.le_floor]

/-- The trace of one probe is the trace of its single `cli` call. -/
theorem try_ping_trace (exsh : Exsh) (ip tmpl : String) :
    (try_ping_with_template exsh ip tmpl).2 = (cli exsh (format1 tmpl ip) true true).2 := by
  by_cases h : (cli exsh (format1 tmpl ip) true true).1.1 <;>
    simp [try_ping_with_template, h]

/-- One probe issues exactly one device command: the formatted template. -/
theorem cmds_try_ping (exsh : Exsh) (ip tmpl : String) :
    cmds (try_ping_with_template exsh ip tmpl).2 = [format1 tmpl ip] := by
  rw [try_ping_trace]; exact cmds_cli exsh (format1 tmpl ip) true true

/-- The device commands of lines 193-198 of `main`, for either value of the
existing-aggregation check. -/
theorem cmds_main_after_check (exsh : Exsh) (b : Bool) :
    cmds (main_after_check exsh b) =
      ["disable sharing " ++ PRIMARY_PORT, "unconfigure sharing " ++ PRIMARY_PORT,
       "enable sharing " ++ PRIMARY_PORT ++ " grouping " ++ GROUPING_PORTS ++
         " algorithm " ++ ALGORITHM_CLI ++ " lacp",
       "configure sharing " ++ PRIMARY_PORT ++ " lacp activity active"] := by
  cases b <;> simp [main_after_check, reset_sharing, enable_sharing_lacp]

/-- Unfolding one loop iteration when the step continues. -/
theorem monitor_run_next {stableReq : ℤ} {timeout start : ℚ} {oks : ℕ → Bool}
    {times : ℕ → ℚ} {k : ℕ} {ss s : Option ℚ} (fuel : ℕ)
    (h : monitor_step stableReq timeout start ss (oks k) (times k) = .next s) :
    monitor_run stableReq timeout start oks times (fuel + 1) k ss =
      monitor_run stableReq timeout start oks times fuel (k + 1) s := by
  rw [monitor_run, h]

/-- Unfolding one loop iteration when the step returns success. -/
theorem monitor_run_success {stableReq : ℤ} {timeout start : ℚ} {oks : ℕ → Bool}
    {times : ℕ → ℚ} {k : ℕ} {ss : Option ℚ} (fuel : ℕ)
    (h : monitor_step stableReq timeout start ss (oks k) (times k) = .success) :
    monitor_run stableReq timeout start oks times (fuel + 1) k ss = some true := by
  rw [monitor_run, h]

/-- Once the overall deadline has been exceeded, an iteration always
returns (success or failure), never continues. -/
theorem monitor_step_timeout {stableReq : ℤ} {timeout start now : ℚ}
    (ss : Option ℚ) (ok : Bool) (h : timeout < now - start) :
    monitor_step stableReq timeout start ss ok now = .success ∨
    monitor_step stableReq timeout start ss ok now = .failure := by
  cases ok <;> rcases ss with _ | t <;> simp only [monitor_step] <;>
    split_ifs <;> simp_all

/-! ### Claim theorems -/

/-- Claim C10: the `ignore_error` flag of `cli` has no observable effect:
for every device environment, command string and capture flag, `cli` with
`ignore_error = true` returns exactly the same result and produces exactly
the same trace as `cli` with `ignore_error = false`, on the success path
and on the fault path alike. -/
theorem cli_ignore_error_irrelevant (exsh : Exsh) (c : String) (capture : Bool) :
    cli exsh c capture true = cli exsh c capture false := by
  cases h : exsh c capture <;> simp [cli, h]

/-- Claim C7: the command-execution wrapper never propagates a fault: it
always returns a `(succeeded, outputText)` pair (it is a total function in
this embedding), and whenever the underlying device call raises
(`exsh c capture = none`) it returns `succeeded = false` with
`outputText = ""`; on a normal return it passes the output through. -/
theorem cli_never_raises (exsh : Exsh) (c : String) (capture ie : Bool) :
    (exsh c capture = none → (cli exsh c capture ie).1 = (false, "")) ∧
    (∀ out, exsh c capture = some out → (cli exsh c capture ie).1 = (true, out)) := by
  constructor
  · intro h; simp [cli, h]
  · intro out h; simp [cli, h]

/-- Witness for C7: on the always-raising device, `cli` converts the fault
into `(false, "")`. -/
theorem cli_never_raises_witness :
    (cli exshFail "show ports sharing" true true).1 = (false, "") :=
  (cli_never_raises exshFail "show ports sharing" true true).1 rfl

/-- Claim C8: the existing-aggregation check influences only logging: for
any two runs of `main` that differ only in the boolean returned by
`sharing_present_on_primary`, the device commands issued afterwards are
identical (the boolean only selects an informational log line). -/
theorem sharing_check_no_behavior_effect (exsh : Exsh) (b1 b2 : Bool) :
    cmds (main_after_check exsh b1) = cmds (main_after_check exsh b2) := by
  cases b1 <;> cases b2 <;> simp [main_after_check]

/-- Claim C5: after the monitor returns, `main` takes exactly one of two
terminal branches.  On success it issues only save commands (the named
post-change save, plus at most the plain fallback save) and none of the
rollback commands; on failure it issues exactly the five static-sharing
rollback commands and no save command at all. -/
theorem main_commit_or_rollback_branches (exsh : Exsh) :
    (cmds (main_commit_or_rollback exsh true) =
       ["save configuration " ++ BACKUP_NAME_POST] ∨
     cmds (main_commit_or_rollback exsh true) =
       ["save configuration " ++ BACKUP_NAME_POST, "save configuration"]) ∧
    (cmds (main_commit_or_rollback exsh true)).all
      (fun c => strHasPre "save" c) = true ∧
    cmds (main_commit_or_rollback exsh false) =
      ["disable sharing " ++ PRIMARY_PORT, "unconfigure sharing " ++ PRIMARY_PORT,
       "enable sharing " ++ PRIMARY_PORT ++ " grouping " ++ GROUPING_PORTS ++
         " algorithm " ++ ALGORITHM_CLI,
       "disable ports " ++ PRIMARY_PORT, "enable ports " ++ PRIMARY_PORT] ∧
    (cmds (main_commit_or_rollback exsh false)).all
      (fun c => !(strHasPre "save" c)) = true := by
  have hsave := cmds_try_save_named exsh BACKUP_NAME_POST
  have hc := cmds_commit exsh
  have hr := cmds_rollback exsh
  refine ⟨?_, ?_, hr, ?_⟩
  · rw [hc]; exact hsave
  · rw [hc]; rcases hsave with h | h <;> rw [h] <;> decide
  · rw [hr]; decide

/-- Claim C2: on a poll tick whose `stable_since` entries are past times,
the monitor iteration returns success exactly when the probe succeeded, the
stability window is already open, and `now - stableSince` has reached the
stability threshold; it returns failure exactly when that success condition
does not hold and `now - start` exceeds the overall timeout — so the
success check takes precedence over the timeout check within a tick. -/
theorem monitor_step_success_failure_iff (stableReq : ℤ) (timeout start now : ℚ)
    (ss : Option ℚ) (ok : Bool)
    (h : ∀ t, ss = some t → t ≤ now) :
    (monitor_step stableReq timeout start ss ok now = .success ↔
      (ok = true ∧ ∃ t, ss = some t ∧ (stableReq : ℚ) ≤ now - t)) ∧
    (monitor_step stableReq timeout start ss ok now = .failure ↔
      ((¬(ok = true ∧ ∃ t, ss = some t ∧ (stableReq : ℚ) ≤ now - t)) ∧
        timeout < now - start)) := by
  cases ok with
  | false =>
    simp only [monitor_step]
    split_ifs with hc <;> simp_all
  | true =>
    cases ss with
    | none =>
      simp only [monitor_step]
      split_ifs with hc <;> simp_all
    | some t =>
      have ht : t ≤ now := h t rfl
      have key : stableReq ≤ pyInt (now - t) ↔ (stableReq : ℚ) ≤ now - t :=
        le_pyInt_iff (by linarith)
      simp only [monitor_step, ge_iff_le]
      split_ifs with h1 h2 <;> simp_all

/-- Witness for C2: with threshold 60 and a window opened at time 0, the
tick at time 60 returns success. -/
theorem monitor_step_success_failure_iff_witness :
    monitor_step 60 120 0 (some 0) true 60 = .success := by
  refine ((monitor_step_success_failure_iff 60 120 0 60 (some 0) true ?_).1).mpr
    ⟨rfl, 0, rfl, by norm_num⟩
  intro t ht
  cases ht
  norm_num

/-- Claim C3: any failed probe fully discards the stability window (the
iteration either times out or continues with `stable_since = null` — never
a decremented window), and a successful probe from a null window opens a
fresh window stamped with the current tick time. -/
theorem monitor_step_window_reset_reopen (stableReq : ℤ) (timeout start now : ℚ)
    (ss : Option ℚ) :
    (monitor_step stableReq timeout start ss false now = .failure ∨
     monitor_step stableReq timeout start ss false now = .next none) ∧
    (monitor_step stableReq timeout start none true now = .failure ∨
     monitor_step stableReq timeout start none true now = .next (some now)) := by
  constructor
  · rcases ss with _ | t <;> simp only [monitor_step] <;> split_ifs <;> simp_all
  · simp only [monitor_step]
    split_ifs <;> simp_all

/-- Counterexample to claim C4 as stated: with threshold 0 and every probe
succeeding, the monitor has not returned after processing the first
successful poll tick (fuel 1 is exhausted without a decision); success is
only returned on the second tick. -/
theorem monitor_nonpos_threshold_cex :
    monitor_run 0 120 0 oksT timesT 1 0 none = none ∧
    monitor_run 0 120 0 oksT timesT 2 0 none = some true := by
  have ht0 : timesT 0 = 2 := by norm_num [timesT]
  have h0 : monitor_step 0 120 0 none (oksT 0) (timesT 0) = .next (some 2) := by
    simp [monitor_step, oksT, ht0]
    norm_num
  have h1 : monitor_step 0 120 0 (some 2) (oksT 1) (timesT 1) = .success := by
    have hc : (0 : ℤ) ≤ pyInt (timesT 1 - 2) := by
      rw [le_pyInt_iff (by norm_num [timesT])]
      norm_num [timesT]
    simp [monitor_step, oksT, ge_iff_le, hc]
  constructor
  · show monitor_run 0 120 0 oksT timesT (0 + 1) 0 none = none
    rw [monitor_run_next 0 h0, monitor_run]
  · show monitor_run 0 120 0 oksT timesT (1 + 1) 0 none = some true
    rw [monitor_run_next 1 h0]
    exact monitor_run_success 0 h1

/-- Claim C4 (amended): if the stability threshold is `≤ 0`, a successful
probe with the window already open returns success immediately; but the
first successful probe of a window only opens it (the success test is not
applied on that tick), so success arrives at the earliest on the next
successful tick. -/
theorem monitor_step_nonpos_threshold (stableReq : ℤ) (timeout start now t : ℚ)
    (hs : stableReq ≤ 0) (ht : t ≤ now) :
    monitor_step stableReq timeout start (some t) true now = .success ∧
    (monitor_step stableReq timeout start none true now = .failure ∨
     monitor_step stableReq timeout start none true now = .next (some now)) := by
  constructor
  · have hfloor : stableReq ≤ pyInt (now - t) := by
      rw [le_pyInt_iff (by linarith)]
      have : (stableReq : ℚ) ≤ 0 := by exact_mod_cast hs
      linarith
    simp [monitor_step, ge_iff_le, hfloor]
  · simp only [monitor_step]
    split_ifs <;> simp_all

/-- Witness for the amended C4: threshold 0, window opened at time 2, probe
succeeding at time 4. -/
theorem monitor_step_nonpos_threshold_witness :
    monitor_step 0 120 0 (some 2) true 4 = .success ∧
    (monitor_step 0 120 0 none true 4 = .failure ∨
     monitor_step 0 120 0 none true 4 = .next (some 4)) :=
  monitor_step_nonpos_threshold 0 120 0 4 2 le_rfl (by norm_num)

/-- Claim C9: the monitor loop terminates for every sequence of probe
outcomes: if time is non-decreasing and advances by at least the poll
interval per iteration (so `times k` is at least `start + k * interval`),
then the loop has returned a boolean after at most `K + 1` iterations for
any `K` with `timeout < K * interval` — in particular for `K` equal to the
overall timeout divided by the poll interval, plus one. -/
theorem monitor_run_terminates (stableReq : ℤ) (timeout interval start : ℚ)
    (oks : ℕ → Bool) (times : ℕ → ℚ) (K : ℕ)
    (hint : 0 ≤ interval) (h0 : start ≤ times 0)
    (hadv : ∀ k, times k + interval ≤ times (k + 1))
    (hK : timeout < (K : ℚ) * interval) :
    (monitor_run stableReq timeout start oks times (K + 1) 0 none).isSome = true := by
  have hA : ∀ k : ℕ, start + (k : ℚ) * interval ≤ times k := by
    intro k
    induction k with
    | zero => simpa using h0
    | succ n ih =>
      have h2 := hadv n
      push_cast
      push_cast at ih
      linarith
  have hstep : ∀ (k : ℕ) (ss : Option ℚ), K ≤ k →
      monitor_step stableReq timeout start ss (oks k) (times k) = .success ∨
      monitor_step stableReq timeout start ss (oks k) (times k) = .failure := by
    intro k ss hk
    have h1 : (K : ℚ) * interval ≤ (k : ℚ) * interval :=
      mul_le_mul_of_nonneg_right (by exact_mod_cast hk) hint
    have h2 : timeout < times k - start := by
      have := hA k
      linarith
    exact monitor_step_timeout ss (oks k) h2
  have main : ∀ (j k : ℕ) (ss : Option ℚ), K ≤ k + j →
      (monitor_run stableReq timeout start oks times (j + 1) k ss).isSome = true := by
    intro j
    induction j with
    | zero =>
      intro k ss hk
      rw [monitor_run]
      rcases hstep k ss (by omega) with h | h <;> rw [h] <;> rfl
    | succ n ih =>
      intro k ss hk
      rw [monitor_run]
      rcases hs : monitor_step stableReq timeout start ss (oks k) (times k) with _ | _ | s
      · rfl
      · rfl
      · exact ih (k + 1) s (by omega)
  exact main K 0 none (by omega)

/-- Witness for C9: with timeout 120 and interval 2, all probes failing and
time advancing by exactly the interval, the loop returns within 62 ticks
(iteration index at most 61 = 120 / 2 + 1). -/
theorem monitor_run_terminates_witness :
    (monitor_run 60 120 0 (fun _ => false) (fun k => 2 * (k : ℚ) + 2) 62 0 none).isSome = true :=
  monitor_run_terminates 60 120 2 0 (fun _ => false) (fun k => 2 * (k : ℚ) + 2) 61
    (by norm_num) (by norm_num) (fun k => by push_cast; linarith) (by norm_num)

/-- Counterexample to claim C1 as stated: on a device where every candidate
fails, the first probe call leaves the cached template unresolved (`none`)
after issuing the three candidate commands; a subsequent call therefore
runs the whole candidate-list detection again — and if the device has
started answering, that subsequent call even returns `true`, contradicting
both "without running the candidate-list detection again" and "every
subsequent call returns false". -/
theorem ping_detection_retry_cex :
    (ping_ok exshFail none).1 = (false, none) ∧
    cmds (ping_ok exshFail none).2 =
      ["ping count 1 8.8.8.8", "ping 8.8.8.8", "ping ipv4 count 1 8.8.8.8"] ∧
    (ping_ok exshGood none).1.1 = true ∧
    cmds (ping_ok exshGood none).2 = ["ping count 1 8.8.8.8", "ping count 1 8.8.8.8"] := by
  exact ⟨rfl, rfl, rfl, rfl⟩

/-- Claim C1 (amended): once a detection pass has succeeded the template is
cached and every subsequent probe issues exactly one command, the formatted
cached template, leaving the cache unchanged.  After a failed detection
pass, however, the cached template remains `none` — the call returns
`(false, none)` and its commands are exactly the detection pass's commands
— so every subsequent probe call re-runs the candidate-list detection
(returning false only while detection keeps failing). -/
theorem ping_ok_cache_amended (exsh : Exsh) (t : String) :
    ((ping_ok exsh (some t)).1.2 = some t ∧
     cmds (ping_ok exsh (some t)).2 = [format1 t REACHABILITY_IP]) ∧
    ((detect_ping_template exsh).1 = none →
      (ping_ok exsh none).1 = (false, none) ∧
      cmds (ping_ok exsh none).2 = cmds (detect_ping_template exsh).2) := by
  constructor
  · exact ⟨rfl, cmds_try_ping exsh REACHABILITY_IP t⟩
  · intro h
    simp only [ping_ok, h]
    simp

/-- Witness for the amended C1: the always-raising device fails detection,
and the probe then reports unreachable with the cache still unresolved. -/
theorem ping_ok_cache_amended_witness :
    (ping_ok exshFail none).1 = (false, none) ∧
    cmds (ping_ok exshFail none).2 = cmds (detect_ping_template exshFail).2 :=
  (ping_ok_cache_amended exshFail "unused").2 rfl

/-- Counterexample to claim C6 as stated: with a configuration whose
required stability (120) is not below the overall timeout (60) — a
configuration under which success is unreachable — `main` still proceeds
into the device-changing migration steps (it issues `disable sharing 1:60`
among others) instead of refusing to run. -/
theorem main_no_validation_cex :
    (60 : ℚ) ≤ ((120 : ℤ) : ℚ) ∧
    ("disable sharing " ++ PRIMARY_PORT) ∈ cmds (main_pre_trace 120 60 exshFail) := by
  refine ⟨by norm_num, ?_⟩
  decide

/-- Claim C6 (amended): the program performs no startup validation of the
stability/timeout invariant: its pre-monitor behaviour is literally
independent of the two timing parameters, and it always proceeds to issue
the device-changing commands; the constants shipped in the configuration
block do satisfy stability < timeout. -/
theorem main_pre_trace_no_validation (stableReq stableReq2 : ℤ)
    (timeout timeout2 : ℚ) (exsh : Exsh) :
    main_pre_trace stableReq timeout exsh = main_pre_trace stableReq2 timeout2 exsh ∧
    ("disable sharing " ++ PRIMARY_PORT) ∈ cmds (main_pre_trace stableReq timeout exsh) ∧
    (STABLE_REQUIRED_S : ℚ) < OVERALL_TIMEOUT_S := by
  refine ⟨rfl, ?_, by norm_num [STABLE_REQUIRED_S, OVERALL_TIMEOUT_S]⟩
  simp only [main_pre_trace, cmds_append]
  rw [cmds_main_after_check]
  simp

end LacpMigration
